import Mathlib

/-!
Verification of the weather-lookup single-page application
(`src/components/WeatherApp.tsx`).

The development shallowly embeds the component's logic:

* `classify` embeds the weather-code → (condition, description) mapping
  computed inside `fetchWeather` (source lines 73–94);
* `jsRound` embeds JavaScript's `Math.round` on rational inputs;
* `normalize` embeds the construction of the `WeatherData` record passed
  to `setWeather` (source lines 96–105);
* `AppState` embeds the four React state cells
  (`city`, `weather`, `loading`, `error`);
* `LookupEnv` describes what the network does during one lookup
  (each of the two `fetch` calls can fail or return a parsed body);
* `fetchWeather` embeds the visible state effect of one complete run of
  the async `fetchWeather` function;
* `Machine` / `applyEvent` / `Reachable` give a small-step event model in
  which a lookup is started (its synchronous prefix: the blank-query
  guard, `setLoading(true)`, `setError("")`, and issuing the network
  chain) and later settles (the `then`/`catch`/`finally` tail), so that
  in-flight states are observable and overlapping lookups expressible.
-/

namespace WeatherApp

/-- JavaScript `Math.round`: round half toward positive infinity. -/
def jsRound (q : ℚ) : ℤ := ⌊q + 1/2⌋

/-- JavaScript `String.prototype.trim`: strip whitespace from both ends
of the string. -/
def jsTrim (s : String) : String :=
  ⟨((s.data.dropWhile Char.isWhitespace).reverse.dropWhile Char.isWhitespace).reverse⟩

/-- The weather-code classification from `fetchWeather`
(source lines 73–94): `condition`/`description` start at
`"Clear"`/`"Clear sky"` and are reassigned by the first `if`/`else if`
branch whose test succeeds; if no branch fires the defaults remain. -/
def classify (weatherCode : ℤ) : String × String :=
  if weatherCode = 0 then ("Clear", "Clear sky")
  else if weatherCode ≤ 3 then ("Clouds", "Partly cloudy")
  else if weatherCode ≤ 49 then ("Fog", "Foggy")
  else if weatherCode ≤ 69 then ("Rain", "Rainy")
  else if weatherCode ≤ 79 then ("Snow", "Snowy")
  else if weatherCode ≤ 99 then ("Thunderstorm", "Thunderstorm")
  else ("Clear", "Clear sky")

/-- The `WeatherData` interface (source lines 4–13).  Temperature,
feels-like and wind speed are produced by `Math.round`, hence integers;
humidity is passed through as received, hence kept rational. -/
structure WeatherData where
  city : String
  country : String
  temperature : ℤ
  feelsLike : ℤ
  humidity : ℚ
  windSpeed : ℤ
  condition : String
  description : String
deriving DecidableEq

/-- One entry of the geocoding response's `results` array
(source line 61 destructures these four fields). -/
structure GeoResult where
  latitude : ℚ
  longitude : ℚ
  name : String
  country : String
deriving DecidableEq

/-- The parsed geocoding body: its `results` field may be absent
(`none`) or an array. -/
structure GeoData where
  results : Option (List GeoResult)
deriving DecidableEq

/-- Outcome of one `fetch`+`json()` step: a parsed body, or an error
(network failure or a body whose shape makes the subsequent field
accesses throw). -/
inductive FetchResult (α : Type) where
  | ok (a : α)
  | error
deriving DecidableEq

/-- The forecast body's `current` object (source lines 69–70 and
96–105 read exactly these five fields). -/
structure CurrentWeather where
  temperature_2m : ℚ
  relative_humidity_2m : ℚ
  apparent_temperature : ℚ
  wind_speed_10m : ℚ
  weather_code : ℤ
deriving DecidableEq

/-- What the network does during one lookup: the response to the
geocoding call and, were it to be issued, the forecast call. -/
structure LookupEnv where
  geo : FetchResult GeoData
  forecast : FetchResult CurrentWeather
deriving DecidableEq

/-- The record passed to `setWeather` on the success path
(source lines 96–105). -/
def normalize (g : GeoResult) (current : CurrentWeather) : WeatherData :=
  { city := g.name
    country := g.country
    temperature := jsRound current.temperature_2m
    feelsLike := jsRound current.apparent_temperature
    humidity := current.relative_humidity_2m
    windSpeed := jsRound current.wind_speed_10m
    condition := (classify current.weather_code).1
    description := (classify current.weather_code).2 }

/-- How one lookup's `try` block ends: `setWeather(...)`, or a thrown
error caught by the `catch` block. -/
inductive LookupOutcome where
  | success (w : WeatherData)
  | failure
deriving DecidableEq

/-- The single user-visible error string (source line 107). -/
def errorMessage : String := "Could not find weather for this city. Please try again."

/-- The outcome of the `try` block of `fetchWeather` for a given network
behaviour: a geocoding error, a missing or empty `results` array, or a
forecast error all throw into the `catch`; otherwise the first geocoding
result and the forecast's `current` object build the stored weather. -/
def lookupOutcome (env : LookupEnv) : LookupOutcome :=
  match env.geo with
  | .error => .failure
  | .ok geoData =>
    match geoData.results with
    | none => .failure
    | some [] => .failure
    | some (g :: _) =>
      match env.forecast with
      | .error => .failure
      | .ok current => .success (normalize g current)

/-- The four React state cells of `WeatherApp`
(source lines 39–42: `city`, `weather`, `loading`, `error`). -/
structure AppState where
  city : String
  weather : Option WeatherData
  loading : Bool
  error : String
deriving DecidableEq

/-- The state after the synchronous prefix of a non-blank `fetchWeather`
call: `setLoading(true); setError("")` (source lines 47–48). -/
def startState (s : AppState) : AppState :=
  { s with loading := true, error := "" }

/-- The state updates of the `try`/`catch`/`finally` tail of
`fetchWeather`: on success `setWeather(...)` then `setLoading(false)`;
on failure `setError(...)`, `setWeather(null)`, `setLoading(false)`
(source lines 96–111). -/
def applyOutcome (env : LookupEnv) (a : AppState) : AppState :=
  match lookupOutcome env with
  | .success w => { a with weather := some w, loading := false }
  | .failure => { a with error := errorMessage, weather := none, loading := false }

/-- The visible state effect of one complete run of `fetchWeather`
(source lines 44–112): a blank (empty after trimming) `city` returns at
once with no state change; otherwise the start updates are applied and
the lookup's outcome settles. -/
def fetchWeather (env : LookupEnv) (s : AppState) : AppState :=
  if jsTrim s.city = "" then s else applyOutcome env (startState s)

/-- How many network requests one run of `fetchWeather` issues: none
when the query is blank; one when the geocoding call errors or yields a
missing/empty `results` array (the `throw` skips the forecast call);
two otherwise. -/
def networkCalls (env : LookupEnv) (s : AppState) : ℕ :=
  if jsTrim s.city = "" then 0
  else
    match env.geo with
    | .error => 1
    | .ok geoData =>
      match geoData.results with
      | none => 1
      | some [] => 1
      | some (_ :: _) => 2

/-- Whether a lookup's `try` block throws for this network behaviour. -/
def lookupFails (env : LookupEnv) : Bool :=
  match lookupOutcome env with
  | .success _ => false
  | .failure => true

/-- The events the component reacts to: typing in the input
(`onChange`, source line 131), clicking the submit button (`onClick`,
source line 136; the browser delivers no click while the button is
`disabled`), a key press in the input (`onKeyPress`, source lines
114–118), and the settling of an in-flight lookup's network chain.
Events that start a lookup carry the network behaviour that lookup
will observe. -/
inductive Event where
  | typeInput (t : String)
  | clickGo (env : LookupEnv)
  | keyPress (k : String) (env : LookupEnv)
  | settle (i : ℕ)
deriving DecidableEq

/-- The component's full runtime state: the React state cells plus the
list of lookups whose network chains are still in flight. -/
structure Machine where
  app : AppState
  pending : List LookupEnv
deriving DecidableEq

/-- Starting a lookup (the synchronous prefix of `fetchWeather`): a
blank query returns with no effect; otherwise `setLoading(true)`,
`setError("")`, and the network chain is issued (appended to the
in-flight list). -/
def startLookup (env : LookupEnv) (m : Machine) : Machine :=
  if jsTrim m.app.city = "" then m
  else { app := startState m.app, pending := m.pending ++ [env] }

/-- One event's effect.  A click is delivered only while the button is
enabled (`disabled={loading}`, source line 137).  `handleKeyPress` calls
`fetchWeather()` whenever the key is `"Enter"`, with no loading guard
(source lines 114–118).  `settle i` completes the `i`-th in-flight
lookup, applying its `try`/`catch`/`finally` state updates. -/
def applyEvent : Event → Machine → Machine
  | .typeInput t, m => { m with app := { m.app with city := t } }
  | .clickGo env, m => if m.app.loading then m else startLookup env m
  | .keyPress k env, m => if k = "Enter" then startLookup env m else m
  | .settle i, m =>
    match m.pending.get? i with
    | some env => { app := applyOutcome env m.app, pending := m.pending.eraseIdx i }
    | none => m

/-- The initial state (source lines 39–42): empty query, no weather,
not loading, empty error. -/
def initMachine : Machine :=
  { app := { city := "", weather := none, loading := false, error := "" }, pending := [] }

/-- One step: some event takes `a` to `b`. -/
def StepTo (a b : Machine) : Prop := ∃ e : Event, b = applyEvent e a

/-- The states reachable from the initial state. -/
def Reachable (m : Machine) : Prop := Relation.ReflTransGen StepTo initMachine m

/-- The weather card is rendered iff a weather value is stored
(`{weather && (...)}`, source line 149). -/
def showsWeatherCard (a : AppState) : Bool := a.weather.isSome

/-- The loading indicator (the button's busy marker `"..."`) is rendered
iff `loading` holds (source line 140). -/
def showsLoadingMarker (a : AppState) : Bool := a.loading

/-- The empty-state prompt panel is rendered iff no weather is stored
and the component is not loading (`{!weather && !loading && (...)}`,
source line 192). -/
def showsEmptyState (a : AppState) : Bool := !a.weather.isSome && !a.loading

/-- The inline error message is rendered iff `error` is non-empty
(`{error && (...)}`, source line 143). -/
def showsError (a : AppState) : Bool := !(a.error == "")

/-- JavaScript `String.prototype.toLowerCase`, character by character. -/
def jsToLower (s : String) : String := ⟨s.data.map Char.toLower⟩

/-- The icons used by `getWeatherIcon` (source line 2 imports exactly
these from `lucide-react`). -/
inductive Icon where
  | sun
  | cloud
  | cloudRain
  | cloudSnow
  | cloudLightning
  | cloudFog
deriving DecidableEq

/-- The `getWeatherIcon` helper (source lines 15–36): a `switch` on the
lowercased condition, with a default arm returning the `Sun` icon. -/
def getWeatherIcon (condition : String) : Icon :=
  let c := jsToLower condition
  if c = "clear" then .sun
  else if c = "clouds" then .cloud
  else if c = "rain" ∨ c = "drizzle" then .cloudRain
  else if c = "snow" then .cloudSnow
  else if c = "thunderstorm" then .cloudLightning
  else if c = "mist" ∨ c = "fog" ∨ c = "haze" then .cloudFog
  else .sun

/-- Sample geocoding hit used by concrete executions below. -/
def gParis : GeoResult :=
  { latitude := 48.85, longitude := 2.35, name := "Paris", country := "France" }

/-- Sample forecast body with whole-number readings and a clear sky. -/
def cSample : CurrentWeather :=
  { temperature_2m := 20, relative_humidity_2m := 50, apparent_temperature := 18,
    wind_speed_10m := 10, weather_code := 0 }

/-- A network behaviour in which both calls succeed. -/
def envOK : LookupEnv := { geo := .ok ⟨some [gParis]⟩, forecast := .ok cSample }

/-- A network behaviour in which the geocoding call fails. -/
def envBad : LookupEnv := { geo := .error, forecast := .error }

/-- The forecast body of the specification's worked example:
`temperature_2m=21.6`, `relative_humidity_2m=55`,
`apparent_temperature=19.4`, `wind_speed_10m=11.7`, `weather_code=61`. -/
def current5 : CurrentWeather :=
  { temperature_2m := 21.6, relative_humidity_2m := 55, apparent_temperature := 19.4,
    wind_speed_10m := 11.7, weather_code := 61 }

/-- The network behaviour of the worked example: geocoding resolves to
`gParis`, the forecast returns `current5`. -/
def env5 : LookupEnv := { geo := .ok ⟨some [gParis]⟩, forecast := .ok current5 }

/-- The normalized record the worked example expects. -/
def w5 : WeatherData :=
  { city := "Paris", country := "France", temperature := 22, feelsLike := 19,
    humidity := 55, windSpeed := 12, condition := "Rain", description := "Rainy" }

/-- After typing "Paris" into the empty initial state. -/
def mTyped : Machine := applyEvent (.typeInput "Paris") initMachine

/-- After pressing Enter: a lookup is in flight (`loading` is set, one
network chain pending). -/
def mInFlight : Machine := applyEvent (.keyPress "Enter" envOK) mTyped

/-- After that lookup settles successfully: weather stored, idle. -/
def mDone : Machine := applyEvent (.settle 0) mInFlight

/-- After pressing Enter again from the success state: a new lookup is
in flight while the previous weather card is still stored. -/
def mReload : Machine := applyEvent (.keyPress "Enter" envBad) mDone

/-- Pressing Enter while the first lookup is still in flight: a second
network chain is issued alongside the first. -/
def mOverlap : Machine := applyEvent (.keyPress "Enter" envBad) mInFlight

/-- A state with a lookup in flight and a non-blank query. -/
def mFlightW : Machine :=
  { app := { city := "Paris", weather := none, loading := true, error := "" },
    pending := [envBad] }

/-- A whitespace-only query in the otherwise-initial state. -/
def sBlank : AppState := { city := "   ", weather := none, loading := false, error := "" }

/-- A non-blank query about to fail its lookup. -/
def sAtlantis : AppState :=
  { city := "Atlantis", weather := none, loading := false, error := "" }

/-- The state right after a failed lookup, with the query still set. -/
def sAfterFail : AppState :=
  { city := "Paris", weather := none, loading := false, error := errorMessage }

/-- Settling a lookup does not touch the query text. -/
lemma applyOutcome_city (env : LookupEnv) (a : AppState) :
    (applyOutcome env a).city = a.city := by
  unfold applyOutcome
  cases lookupOutcome env <;> rfl

/-- Starting a lookup does not touch the query text. -/
lemma startLookup_city (env : LookupEnv) (m : Machine) :
    (startLookup env m).app.city = m.app.city := by
  unfold startLookup
  split <;> rfl

/-- Typing "Paris" from the initial state is one reachable step. -/
lemma reach_mTyped : Reachable mTyped :=
  Relation.ReflTransGen.single ⟨.typeInput "Paris", rfl⟩

/-- Pressing Enter then puts one lookup in flight. -/
lemma reach_mInFlight : Reachable mInFlight :=
  reach_mTyped.tail ⟨.keyPress "Enter" envOK, rfl⟩

/-- Settling that lookup stores its weather. -/
lemma reach_mDone : Reachable mDone :=
  reach_mInFlight.tail ⟨.settle 0, rfl⟩

/-- Pressing Enter again starts a reload with the old card stored. -/
lemma reach_mReload : Reachable mReload :=
  reach_mDone.tail ⟨.keyPress "Enter" envBad, rfl⟩

/-- C1: inside the lookup, the weather-code classification is the pure
ordered-range function on the documented code space 0..99: code 0 is
Clear/"Clear sky", codes 1–3 Clouds/"Partly cloudy", 4–49 Fog/"Foggy",
50–69 Rain/"Rainy", 70–79 Snow/"Snowy", 80–99
Thunderstorm/"Thunderstorm". -/
theorem C1_classify_ranges : ∀ c : ℤ, 0 ≤ c → c ≤ 99 →
    (c = 0 → classify c = ("Clear", "Clear sky")) ∧
    (1 ≤ c → c ≤ 3 → classify c = ("Clouds", "Partly cloudy")) ∧
    (4 ≤ c → c ≤ 49 → classify c = ("Fog", "Foggy")) ∧
    (50 ≤ c → c ≤ 69 → classify c = ("Rain", "Rainy")) ∧
    (70 ≤ c → c ≤ 79 → classify c = ("Snow", "Snowy")) ∧
    (80 ≤ c → c ≤ 99 → classify c = ("Thunderstorm", "Thunderstorm")) := by
  intro c h0 h99
  refine ⟨?_, ?_, ?_, ?_, ?_, ?_⟩ <;> intros <;> unfold classify <;>
    split_ifs <;> first | rfl | (exfalso; omega)

/-- Witness for C1 at the codes 0, 45 and 99. -/
theorem C1_classify_ranges_witness :
    classify 0 = ("Clear", "Clear sky") ∧
    classify 45 = ("Fog", "Foggy") ∧
    classify 99 = ("Thunderstorm", "Thunderstorm") :=
  ⟨(C1_classify_ranges 0 (by decide) (by decide)).1 rfl,
   (C1_classify_ranges 45 (by decide) (by decide)).2.2.1 (by decide) (by decide),
   (C1_classify_ranges 99 (by decide) (by decide)).2.2.2.2.2 (by decide) (by decide)⟩

/-- C2 counterexample: the claim says every code outside 0..99 defaults
to Clear/"Clear sky", but the code −1 satisfies the `<= 3` test (the
`=== 0` test having failed) and classifies as Clouds/"Partly cloudy". -/
theorem C2_counterexample : classify (-1) = ("Clouds", "Partly cloudy") := by decide

/-- C2 amended: codes above 99 fall past every branch and keep the
default Clear/"Clear sky"; negative codes are captured by the `<= 3`
branch and classify as Clouds/"Partly cloudy", not Clear. -/
theorem C2_amended_default : ∀ c : ℤ,
    (99 < c → classify c = ("Clear", "Clear sky")) ∧
    (c < 0 → classify c = ("Clouds", "Partly cloudy")) := by
  intro c
  constructor <;> intro h <;> unfold classify <;>
    split_ifs <;> first | rfl | (exfalso; omega)

/-- Witness for the amended C2 at the codes 100 and −7. -/
theorem C2_amended_default_witness :
    classify 100 = ("Clear", "Clear sky") ∧
    classify (-7) = ("Clouds", "Partly cloudy") :=
  ⟨(C2_amended_default 100).1 (by decide), (C2_amended_default (-7)).2 (by decide)⟩

/-- C3 counterexample: from the initial state, typing "Paris" and
pressing Enter reaches a state with one lookup in flight
(`loading` set, one pending network chain); pressing Enter again in
that state is not a no-op — it issues a second network chain, so two
lookups are concurrently in flight. -/
theorem C3_counterexample :
    Reachable mInFlight ∧ mInFlight.app.loading = true ∧
    mInFlight.pending.length = 1 ∧
    mOverlap = applyEvent (.keyPress "Enter" envBad) mInFlight ∧
    mOverlap.pending.length = 2 ∧
    networkCalls envBad mInFlight.app = 1 :=
  ⟨reach_mInFlight, by decide, by decide, rfl, by decide, by decide⟩

/-- C3 amended: while a lookup is in flight, a button submission is a
no-op (the button is disabled), but an Enter-key submission is not
guarded by the loading flag: with a blank query it is still rejected,
and with a non-blank query it resets the error, keeps `loading` set and
issues a further network chain alongside the one in flight. -/
theorem C3_amended_submit : ∀ (m : Machine) (env : LookupEnv),
    m.app.loading = true →
    applyEvent (.clickGo env) m = m ∧
    (jsTrim m.app.city = "" → applyEvent (.keyPress "Enter" env) m = m) ∧
    (jsTrim m.app.city ≠ "" → applyEvent (.keyPress "Enter" env) m =
      { app := startState m.app, pending := m.pending ++ [env] }) := by
  intro m env h
  refine ⟨?_, ?_, ?_⟩
  · simp only [applyEvent]
    rw [if_pos h]
  · intro hb
    simp [applyEvent, startLookup, hb]
  · intro hb
    simp [applyEvent, startLookup, hb]

/-- Witness for the amended C3 in a concrete in-flight state. -/
theorem C3_amended_submit_witness :
    applyEvent (.clickGo envBad) mFlightW = mFlightW ∧
    applyEvent (.keyPress "Enter" envBad) mFlightW =
      { app := startState mFlightW.app, pending := mFlightW.pending ++ [envBad] } :=
  ⟨(C3_amended_submit mFlightW envBad rfl).1,
   (C3_amended_submit mFlightW envBad rfl).2.2 (by decide)⟩

/-- C4 counterexample: the claim says exactly one of the three
renderings is shown in every reachable state, but after a successful
lookup followed by a resubmission the machine reaches a state that
renders both the stored weather card and the loading indicator. -/
theorem C4_counterexample :
    Reachable mReload ∧ showsWeatherCard mReload.app = true ∧
    showsLoadingMarker mReload.app = true :=
  ⟨reach_mReload, by decide, by decide⟩

/-- C4 amended: at least one of the three renderings is always shown,
and the empty-state panel excludes the other two; but the weather card
and the loading indicator are not mutually exclusive (a reload after a
success shows both), so the presentation does not show exactly one
rendering determined by the lookup state. -/
theorem C4_amended_render : ∀ a : AppState,
    (showsEmptyState a = true ∨ showsLoadingMarker a = true ∨ showsWeatherCard a = true) ∧
    (showsEmptyState a && showsWeatherCard a) = false ∧
    (showsEmptyState a && showsLoadingMarker a) = false := by
  intro a
  obtain ⟨c, w, l, e⟩ := a
  cases w <;> cases l <;>
    simp [showsEmptyState, showsLoadingMarker, showsWeatherCard]

/-- C5: on the specification's worked example
(`temperature_2m=21.6`, `apparent_temperature=19.4`,
`relative_humidity_2m=55`, `wind_speed_10m=11.7`, `weather_code=61`)
the lookup succeeds with temperature 22, feels-like 19, humidity 55,
wind speed 12, condition "Rain", description "Rainy", and that record is
stored; in general temperature, feels-like and wind speed are the
`Math.round` of the readings — at distance at most 1/2 from them —
while humidity is passed through unchanged. -/
theorem C5_normalization :
    lookupOutcome env5 = .success w5 ∧
    (∀ s : AppState, jsTrim s.city ≠ "" →
      fetchWeather env5 s =
        { city := s.city, weather := some w5, loading := false, error := "" }) ∧
    (∀ (g : GeoResult) (c : CurrentWeather),
      (normalize g c).temperature = jsRound c.temperature_2m ∧
      (normalize g c).feelsLike = jsRound c.apparent_temperature ∧
      (normalize g c).windSpeed = jsRound c.wind_speed_10m ∧
      (normalize g c).humidity = c.relative_humidity_2m) ∧
    (∀ q : ℚ, |(jsRound q : ℚ) - q| ≤ 1/2) := by
  have h1 : jsRound (21.6 : ℚ) = 22 := by unfold jsRound; norm_num [Int.floor_eq_iff]
  have h2 : jsRound (19.4 : ℚ) = 19 := by unfold jsRound; norm_num [Int.floor_eq_iff]
  have h3 : jsRound (11.7 : ℚ) = 12 := by unfold jsRound; norm_num [Int.floor_eq_iff]
  have h4 : classify 61 = ("Rain", "Rainy") := by decide
  have hw : normalize gParis current5 = w5 := by
    simp [normalize, gParis, current5, w5, h1, h2, h3, h4]
  have h0 : lookupOutcome env5 = .success w5 := by
    rw [show lookupOutcome env5 = .success (normalize gParis current5) from rfl, hw]
  refine ⟨h0, ?_, ?_, ?_⟩
  · intro s hs
    obtain ⟨c, w, l, e⟩ := s
    unfold fetchWeather
    rw [if_neg hs]
    simp [applyOutcome, h0, startState]
  · intro g c
    exact ⟨rfl, rfl, rfl, rfl⟩
  · intro q
    unfold jsRound
    have hle := Int.floor_le (q + 1/2)
    have hlt := Int.sub_one_lt_floor (q + 1/2)
    rw [abs_le]
    constructor <;> push_cast at * <;> linarith

/-- Witness for C5: the worked example stored from a concrete state. -/
theorem C5_normalization_witness :
    fetchWeather env5 sAtlantis =
      { city := sAtlantis.city, weather := some w5, loading := false, error := "" } :=
  C5_normalization.2.1 sAtlantis (by decide)

/-- C6: submitting an empty or whitespace-only query performs no
network call and leaves the whole state — query, stored weather,
loading flag and error message — unchanged, both for a complete
`fetchWeather` run and for the start of a lookup in the event model. -/
theorem C6_blank_noop : ∀ (env : LookupEnv) (s : AppState),
    jsTrim s.city = "" →
    fetchWeather env s = s ∧ networkCalls env s = 0 ∧
    ∀ p : List LookupEnv, startLookup env { app := s, pending := p } = { app := s, pending := p } := by
  intro env s h
  refine ⟨?_, ?_, ?_⟩
  · unfold fetchWeather; rw [if_pos h]
  · unfold networkCalls; rw [if_pos h]
  · intro p; unfold startLookup; rw [if_pos h]

/-- Witness for C6 on a whitespace-only query. -/
theorem C6_blank_noop_witness :
    fetchWeather envBad sBlank = sBlank ∧ networkCalls envBad sBlank = 0 ∧
    startLookup envBad { app := sBlank, pending := [] } = { app := sBlank, pending := [] } :=
  ⟨(C6_blank_noop envBad sBlank (by decide)).1,
   (C6_blank_noop envBad sBlank (by decide)).2.1,
   (C6_blank_noop envBad sBlank (by decide)).2.2 []⟩

/-- C7: every failure mode — geocoding network error, missing `results`
array, empty `results` array, or forecast error (network failure or
malformed body) — collapses to one and the same final state: no stored
weather, loading cleared, and exactly the message "Could not find
weather for this city. Please try again.". -/
theorem C7_failure_collapse : ∀ (s : AppState) (env : LookupEnv),
    jsTrim s.city ≠ "" →
    (env.geo = .error ∨ env.geo = .ok ⟨none⟩ ∨ env.geo = .ok ⟨some []⟩ ∨
      env.forecast = .error) →
    fetchWeather env s =
      { city := s.city, weather := none, loading := false, error := errorMessage } := by
  intro s env hc hcase
  have hf : lookupOutcome env = .failure := by
    obtain ⟨geo, fc⟩ := env
    rcases hcase with h | h | h | h <;> subst h <;>
      first
      | rfl
      | (rcases geo with ⟨⟨res⟩⟩ | _
         · rcases res with _ | ⟨_ | ⟨g, rs⟩⟩ <;> rfl
         · rfl)
  obtain ⟨c, w, l, e⟩ := s
  simp only [fetchWeather] at *
  rw [if_neg hc]
  simp [applyOutcome, hf, startState]

/-- Witness for C7: a geocoding network error on a non-blank query. -/
theorem C7_failure_collapse_witness :
    fetchWeather envBad sAtlantis =
      { city := sAtlantis.city, weather := none, loading := false, error := errorMessage } :=
  C7_failure_collapse sAtlantis envBad (by decide) (Or.inl rfl)

/-- C8: from a failure state, a new non-blank submission first clears
the error and raises the loading flag, and the completed run always
clears the loading flag and ends in exactly one of the success state
(weather stored, no error) or the failure state (no weather, the error
message). -/
theorem C8_retry_lifecycle : ∀ (s : AppState) (env : LookupEnv),
    s.loading = false → s.error = errorMessage → jsTrim s.city ≠ "" →
    ((startState s).error = "" ∧ (startState s).loading = true) ∧
    (fetchWeather env s).loading = false ∧
    ((∃ w, lookupOutcome env = .success w ∧
        fetchWeather env s =
          { city := s.city, weather := some w, loading := false, error := "" }) ∨
     (lookupOutcome env = .failure ∧
        fetchWeather env s =
          { city := s.city, weather := none, loading := false, error := errorMessage })) := by
  intro s env h1 h2 h3
  obtain ⟨c, w, l, e⟩ := s
  refine ⟨⟨rfl, rfl⟩, ?_, ?_⟩
  · unfold fetchWeather
    rw [if_neg h3]
    unfold applyOutcome
    rcases lookupOutcome env with w0 | _ <;> rfl
  · rcases hO : lookupOutcome env with w0 | _
    · left
      refine ⟨w0, rfl, ?_⟩
      unfold fetchWeather
      rw [if_neg h3]
      simp [applyOutcome, hO, startState]
    · right
      refine ⟨rfl, ?_⟩
      unfold fetchWeather
      rw [if_neg h3]
      simp [applyOutcome, hO, startState]

/-- Witness for C8: retrying from a concrete failure state. -/
theorem C8_retry_lifecycle_witness :
    ((startState sAfterFail).error = "" ∧ (startState sAfterFail).loading = true) ∧
    (fetchWeather envOK sAfterFail).loading = false ∧
    ((∃ w, lookupOutcome envOK = .success w ∧
        fetchWeather envOK sAfterFail =
          { city := sAfterFail.city, weather := some w, loading := false, error := "" }) ∨
     (lookupOutcome envOK = .failure ∧
        fetchWeather envOK sAfterFail =
          { city := sAfterFail.city, weather := none, loading := false,
            error := errorMessage })) :=
  C8_retry_lifecycle sAfterFail envOK rfl rfl (by decide)

/-- C9: no lookup path and no event other than typing modifies the
query text: a complete `fetchWeather` run, a button click, any key
press and any lookup settlement leave `city` unchanged, while typing
replaces it with the typed text. -/
theorem C9_query_frame :
    ∀ (env : LookupEnv) (s : AppState) (m : Machine) (k : String) (i : ℕ) (t : String),
    (fetchWeather env s).city = s.city ∧
    (applyEvent (.clickGo env) m).app.city = m.app.city ∧
    (applyEvent (.keyPress k env) m).app.city = m.app.city ∧
    (applyEvent (.settle i) m).app.city = m.app.city ∧
    (applyEvent (.typeInput t) m).app.city = t := by
  intro env s m k i t
  refine ⟨?_, ?_, ?_, ?_, rfl⟩
  · unfold fetchWeather
    split
    · rfl
    · exact applyOutcome_city env (startState s)
  · simp only [applyEvent]
    split
    · rfl
    · exact startLookup_city env m
  · simp only [applyEvent]
    split
    · exact startLookup_city env m
    · rfl
  · simp only [applyEvent]
    rcases h : m.pending.get? i with _ | e
    · simp only [h]
    · simp only [h]
      exact applyOutcome_city e m.app

/-- C10: icon selection is total and case-insensitive — it depends only
on the lowercased category; the six service-produced categories map to
their fixed icons; the never-produced categories "drizzle" and
"mist"/"haze" share the Rain and Fog icons; every other string takes
the default, which is the same Sun icon as Clear. -/
theorem C10_icon_selection :
    (getWeatherIcon "Clear" = .sun ∧ getWeatherIcon "Clouds" = .cloud ∧
     getWeatherIcon "Fog" = .cloudFog ∧ getWeatherIcon "Rain" = .cloudRain ∧
     getWeatherIcon "Snow" = .cloudSnow ∧
     getWeatherIcon "Thunderstorm" = .cloudLightning) ∧
    (getWeatherIcon "drizzle" = getWeatherIcon "Rain" ∧
     getWeatherIcon "mist" = getWeatherIcon "Fog" ∧
     getWeatherIcon "haze" = getWeatherIcon "Fog") ∧
    (∀ s t : String, jsToLower s = jsToLower t → getWeatherIcon s = getWeatherIcon t) ∧
    (∀ s : String,
      jsToLower s ∉ (["clear", "clouds", "rain", "drizzle", "snow",
        "thunderstorm", "mist", "fog", "haze"] : List String) →
      getWeatherIcon s = .sun) ∧
    getWeatherIcon "unknown-category" = getWeatherIcon "Clear" := by
  refine ⟨⟨by decide, by decide, by decide, by decide, by decide, by decide⟩,
    ⟨by decide, by decide, by decide⟩, ?_, ?_, by decide⟩
  · intro s t h
    simp only [getWeatherIcon, h]
  · intro s h
    simp only [List.mem_cons, List.not_mem_nil, or_false, not_or] at h
    simp only [getWeatherIcon]
    split_ifs <;> simp_all

/-- Witness for C10: case-insensitivity and the default arm at concrete
strings. -/
theorem C10_icon_selection_witness :
    getWeatherIcon "CLEAR" = getWeatherIcon "clear" ∧ getWeatherIcon "Sunny" = .sun :=
  ⟨C10_icon_selection.2.2.1 "CLEAR" "clear" (by decide),
   C10_icon_selection.2.2.2.1 "Sunny" (by decide)⟩

end WeatherApp
